import Mathlib

/-!
Verification of the tracking-status normalization and delivery-risk
classification engine of the orderwarden repository.

The repository contains several provider-specific variants of the same
service file:
* `services/trackingService.js` (early mock variant) — namespace `Mock`;
* `services/trackingService.js` (AfterShip v4 variant, second half of the
  same file) — namespace `AfterShip`;
* the 17TRACK variant — namespace `Track17`;
* the AfterShip 2024-07 variant, whose normalizer, risk classifier and
  carrier detector are line-for-line identical in logic to the AfterShip v4
  ones (only the HTTP plumbing differs), so the `AfterShip` definitions
  embed both;
* `backend/src/utils/messageTemplates.js` — namespace `Messages`.

JavaScript is embedded shallowly: strings stay `String`, JS timestamps
become rational milliseconds, `null`/`undefined` become `Option`, and the
JS quirks the code relies on (falsy empty strings, `NaN` comparing false
against every number) are modelled explicitly by the helpers below.
-/

/-- Milliseconds per hour, the divisor `1000 * 60 * 60` used by every
`calculateRiskLevel` variant. -/
def msPerHour : ℚ := 3600000

/-- A JS timestamp value as it reaches `calculateRiskLevel`:
`absent` is `null`/`undefined` (falsy), `invalid` is a present but
unparseable value whose `new Date(...)` is an Invalid Date (`NaN`),
`time ms` is a parseable timestamp in epoch milliseconds. -/
inductive JsTime where
  | absent
  | invalid
  | time (ms : ℚ)
deriving DecidableEq

/-- JS truthiness of the timestamp value (a present string or Date is
truthy, `null`/`undefined` is falsy). -/
def JsTime.truthy : JsTime → Bool
  | .absent => false
  | _ => true

/-- `(Date.now() - new Date(lastUpdateTime)) / (1000 * 60 * 60)`:
`none` models the `NaN` produced when the timestamp is absent or invalid. -/
def JsTime.hoursSince (t : JsTime) (now : ℚ) : Option ℚ :=
  match t with
  | .time ms => some ((now - ms) / msPerHour)
  | _ => none

/-- A JS `>` comparison whose left side may be `NaN`: `NaN > c` is false. -/
def nanGt (x : Option ℚ) (c : ℚ) : Bool :=
  match x with
  | none => false
  | some v => decide (v > c)

/-- JS `a || b` on a nullable string: `null`, `undefined` and `""` are
falsy and fall through to the default. -/
def jsOrStr (a : Option String) (b : String) : String :=
  match a with
  | none => b
  | some s => if s = "" then b else s

/-- JS `a || b` where the default is itself nullable. -/
def jsOrOpt (a : Option String) (b : Option String) : Option String :=
  match a with
  | none => b
  | some s => if s = "" then b else some s

/-- `String.prototype.toLowerCase()` on the ASCII strings the service
handles, written structurally so that concrete instances evaluate. -/
def jsToLower (s : String) : String := String.mk (s.data.map Char.toLower)

/-- JS truthiness of a nullable string. -/
def jsTruthyStr (a : Option String) : Bool :=
  match a with
  | none => false
  | some s => !(s = "")

namespace Mock

/-- `calculateRiskLevel` from the early mock variant of
`services/trackingService.js` (lines 118-161).  The `in_transit` and
`pre_transit` staleness blocks are guarded by `&& lastUpdateTime`
(truthiness), and each inner `return` corresponds to one branch of the
if-chain; a stale check that does not fire falls through to the later
tests exactly as in the source. -/
def calculateRiskLevel (status : String) (lastUpdateTime : JsTime) (now : ℚ) : String :=
  let s := jsToLower status
  if s = "exception" || s = "delivery_failed" || s = "lost" then "red"
  else if s = "delivered" || s = "out_for_delivery" then "green"
  else if s = "in_transit" && lastUpdateTime.truthy && nanGt (lastUpdateTime.hoursSince now) 72 then "red"
  else if s = "in_transit" && lastUpdateTime.truthy && nanGt (lastUpdateTime.hoursSince now) 48 then "yellow"
  else if s = "pre_transit" && lastUpdateTime.truthy && nanGt (lastUpdateTime.hoursSince now) 48 then "yellow"
  else if s = "unknown" then "yellow"
  else "green"

end Mock

namespace AfterShip

/-- `calculateRiskLevel` from the AfterShip v4 variant of
`services/trackingService.js` (lines 385-428).  The 17TRACK variant
(part_009 lines 200-230) and the AfterShip 2024-07 variant (part_012
lines 202-232) are logically identical, so this definition embeds all
three: unlike the mock variant there is no truthiness guard, and an
absent timestamp flows into `new Date(undefined)` giving `NaN`. -/
def calculateRiskLevel (status : String) (lastUpdateTime : JsTime) (now : ℚ) : String :=
  let s := jsToLower status
  if s = "exception" || s = "delivery_failed" || s = "lost" then "red"
  else if s = "delivered" || s = "out_for_delivery" then "green"
  else if s = "in_transit" && nanGt (lastUpdateTime.hoursSince now) 72 then "red"
  else if s = "in_transit" && nanGt (lastUpdateTime.hoursSince now) 48 then "yellow"
  else if s = "pre_transit" && nanGt (lastUpdateTime.hoursSince now) 48 then "yellow"
  else if s = "unknown" then "yellow"
  else "green"

end AfterShip

namespace Track17V2

/-- `calculateRiskLevel` from the later 17TRACK v2.2 variant (part_011
lines 218-248): unlike every other variant, its `pre_transit` branch is
`return "green"` unconditionally ("Pre-transit is always green"),
placed before the `in_transit` staleness checks. -/
def calculateRiskLevel (status : String) (lastUpdateTime : JsTime) (now : ℚ) : String :=
  let s := jsToLower status
  if s = "exception" || s = "delivery_failed" || s = "lost" then "red"
  else if s = "delivered" || s = "out_for_delivery" then "green"
  else if s = "pre_transit" then "green"
  else if s = "in_transit" && nanGt (lastUpdateTime.hoursSince now) 72 then "red"
  else if s = "in_transit" && nanGt (lastUpdateTime.hoursSince now) 48 then "yellow"
  else if s = "unknown" then "yellow"
  else "green"

end Track17V2

/-- The closed risk vocabulary. -/
def riskSet : List String := ["green", "yellow", "red"]

lemma mock_risk_mem (status : String) (t : JsTime) (now : ℚ) :
    Mock.calculateRiskLevel status t now ∈ riskSet := by
  unfold Mock.calculateRiskLevel
  dsimp only
  repeat' split
  all_goals simp [riskSet]

lemma aftership_risk_mem (status : String) (t : JsTime) (now : ℚ) :
    AfterShip.calculateRiskLevel status t now ∈ riskSet := by
  unfold AfterShip.calculateRiskLevel
  dsimp only
  repeat' split
  all_goals simp [riskSet]

/-- Claim C2: for every input status string and every timestamp value
(absent, invalid, or any epoch time) both the mock-variant and the
provider-variant `calculateRiskLevel` return exactly one of "green",
"yellow", "red"; the embedding is a total function, so the JS code never
returns null/undefined and never throws on string-typed statuses. -/
theorem C2_classifyRisk_total (status : String) (t : JsTime) (now : ℚ) :
    Mock.calculateRiskLevel status t now ∈ riskSet ∧
    AfterShip.calculateRiskLevel status t now ∈ riskSet :=
  ⟨mock_risk_mem status t now, aftership_risk_mem status t now⟩

lemma lower_in_transit : jsToLower "in_transit" = "in_transit" := by decide

lemma lower_pre_transit : jsToLower "pre_transit" = "pre_transit" := by decide

lemma mock_inTransit_eval (t now : ℚ) :
    Mock.calculateRiskLevel "in_transit" (JsTime.time t) now =
      if (now - t) / msPerHour > 72 then "red"
      else if (now - t) / msPerHour > 48 then "yellow"
      else "green" := by
  unfold Mock.calculateRiskLevel
  dsimp only
  rw [lower_in_transit]
  simp [JsTime.truthy, JsTime.hoursSince, nanGt]

lemma aftership_inTransit_eval (t now : ℚ) :
    AfterShip.calculateRiskLevel "in_transit" (JsTime.time t) now =
      if (now - t) / msPerHour > 72 then "red"
      else if (now - t) / msPerHour > 48 then "yellow"
      else "green" := by
  unfold AfterShip.calculateRiskLevel
  dsimp only
  rw [lower_in_transit]
  simp [JsTime.hoursSince, nanGt]

lemma mock_preTransit_eval (t now : ℚ) :
    Mock.calculateRiskLevel "pre_transit" (JsTime.time t) now =
      if (now - t) / msPerHour > 48 then "yellow" else "green" := by
  unfold Mock.calculateRiskLevel
  dsimp only
  rw [lower_pre_transit]
  simp [JsTime.truthy, JsTime.hoursSince, nanGt]

lemma aftership_preTransit_eval (t now : ℚ) :
    AfterShip.calculateRiskLevel "pre_transit" (JsTime.time t) now =
      if (now - t) / msPerHour > 48 then "yellow" else "green" := by
  unfold AfterShip.calculateRiskLevel
  dsimp only
  rw [lower_pre_transit]
  simp [JsTime.hoursSince, nanGt]

/-- Claim C5: for `in_transit` with a present timestamp, both embedded
variants return "red" exactly when `hoursSinceUpdate > 72`, "yellow"
exactly when `48 < hoursSinceUpdate ≤ 72`, and "green" when
`hoursSinceUpdate ≤ 48`; both thresholds are strict comparisons, so
exactly 48 hours is "green" and exactly 72 hours is "yellow". -/
theorem C5_inTransit_thresholds (t now : ℚ) :
    ((now - t) / msPerHour > 72 →
      Mock.calculateRiskLevel "in_transit" (JsTime.time t) now = "red" ∧
      AfterShip.calculateRiskLevel "in_transit" (JsTime.time t) now = "red") ∧
    (48 < (now - t) / msPerHour ∧ (now - t) / msPerHour ≤ 72 →
      Mock.calculateRiskLevel "in_transit" (JsTime.time t) now = "yellow" ∧
      AfterShip.calculateRiskLevel "in_transit" (JsTime.time t) now = "yellow") ∧
    ((now - t) / msPerHour ≤ 48 →
      Mock.calculateRiskLevel "in_transit" (JsTime.time t) now = "green" ∧
      AfterShip.calculateRiskLevel "in_transit" (JsTime.time t) now = "green") := by
  refine ⟨?_, ?_, ?_⟩
  · intro h
    rw [mock_inTransit_eval, aftership_inTransit_eval, if_pos h]
    exact ⟨rfl, rfl⟩
  · rintro ⟨h1, h2⟩
    have h3 : ¬((now - t) / msPerHour > 72) := by linarith
    rw [mock_inTransit_eval, aftership_inTransit_eval, if_neg h3, if_pos h1]
    exact ⟨rfl, rfl⟩
  · intro h
    have h3 : ¬((now - t) / msPerHour > 72) := by linarith
    have h4 : ¬((now - t) / msPerHour > 48) := by linarith
    rw [mock_inTransit_eval, aftership_inTransit_eval, if_neg h3, if_neg h4]
    exact ⟨rfl, rfl⟩

/-- Witness for C5 at last update 73h, 50h and 48h (exactly) before now. -/
theorem C5_inTransit_thresholds_witness :
    Mock.calculateRiskLevel "in_transit" (JsTime.time 0) 262800000 = "red" ∧
    AfterShip.calculateRiskLevel "in_transit" (JsTime.time 0) 180000000 = "yellow" ∧
    Mock.calculateRiskLevel "in_transit" (JsTime.time 0) 172800000 = "green" :=
  ⟨((C5_inTransit_thresholds 0 262800000).1 (by norm_num [msPerHour])).1,
   ((C5_inTransit_thresholds 0 180000000).2.1
      ⟨by norm_num [msPerHour], by norm_num [msPerHour]⟩).2,
   ((C5_inTransit_thresholds 0 172800000).2.2 (by norm_num [msPerHour])).1⟩

/-- Claim C4 counterexample: with the last update 50 hours before now
(lastUpdateTime = 0, now = 180000000 ms), every embedded
`calculateRiskLevel` variant returns "yellow" for `pre_transit`, not
"green" — pre-transit staleness over 48h does elevate the risk. -/
theorem C4_preTransit_counterexample :
    Mock.calculateRiskLevel "pre_transit" (JsTime.time 0) 180000000 = "yellow" ∧
    AfterShip.calculateRiskLevel "pre_transit" (JsTime.time 0) 180000000 = "yellow" ∧
    ("yellow" : String) ≠ "green" := by
  refine ⟨?_, ?_, by decide⟩
  · rw [mock_preTransit_eval]
    norm_num [msPerHour]
  · rw [aftership_preTransit_eval]
    norm_num [msPerHour]

/-- Claim C4 (amended): in the variants the claim cites (the mock
variant, the AfterShip v4/2024-07 variants, and the part_009 17TRACK
variant), `classifyRisk("pre_transit", t)` is "green" only while the
last update is at most 48 hours old (or the timestamp is absent); once
`hoursSinceUpdate > 48` those variants return "yellow".  Only the later
17TRACK v2.2 variant (part_011) returns "green" for `pre_transit`
unconditionally — the per-provider drift the spec's open question
flags. -/
theorem C4_preTransit_amended (t now : ℚ) (u : JsTime) :
    ((now - t) / msPerHour ≤ 48 →
      Mock.calculateRiskLevel "pre_transit" (JsTime.time t) now = "green" ∧
      AfterShip.calculateRiskLevel "pre_transit" (JsTime.time t) now = "green") ∧
    ((now - t) / msPerHour > 48 →
      Mock.calculateRiskLevel "pre_transit" (JsTime.time t) now = "yellow" ∧
      AfterShip.calculateRiskLevel "pre_transit" (JsTime.time t) now = "yellow") ∧
    (Mock.calculateRiskLevel "pre_transit" JsTime.absent now = "green" ∧
     AfterShip.calculateRiskLevel "pre_transit" JsTime.absent now = "green") ∧
    Track17V2.calculateRiskLevel "pre_transit" u now = "green" := by
  refine ⟨?_, ?_, ⟨?_, ?_⟩, ?_⟩
  · intro h
    have h3 : ¬((now - t) / msPerHour > 48) := by linarith
    rw [mock_preTransit_eval, aftership_preTransit_eval, if_neg h3]
    exact ⟨rfl, rfl⟩
  · intro h
    rw [mock_preTransit_eval, aftership_preTransit_eval, if_pos h]
    exact ⟨rfl, rfl⟩
  · unfold Mock.calculateRiskLevel
    dsimp only
    rw [lower_pre_transit]
    simp [JsTime.truthy, JsTime.hoursSince, nanGt]
  · unfold AfterShip.calculateRiskLevel
    dsimp only
    rw [lower_pre_transit]
    simp [JsTime.hoursSince, nanGt]
  · unfold Track17V2.calculateRiskLevel
    dsimp only
    rw [lower_pre_transit]
    simp

/-- Witness for C4 (amended) at 1h-old and 50h-old pre-transit updates,
the latter also showing part_011's unconditional green. -/
theorem C4_preTransit_amended_witness :
    Mock.calculateRiskLevel "pre_transit" (JsTime.time 0) 3600000 = "green" ∧
    AfterShip.calculateRiskLevel "pre_transit" (JsTime.time 0) 180000000 = "yellow" ∧
    Track17V2.calculateRiskLevel "pre_transit" (JsTime.time 0) 180000000 = "green" :=
  ⟨((C4_preTransit_amended 0 3600000 (JsTime.time 0)).1 (by norm_num [msPerHour])).1,
   ((C4_preTransit_amended 0 180000000 (JsTime.time 0)).2.1 (by norm_num [msPerHour])).2,
   (C4_preTransit_amended 0 180000000 (JsTime.time 0)).2.2.2⟩

/-- Claim C10: for `in_transit` with an absent or unparseable timestamp,
every variant returns "green": the mock variant's `&& lastUpdateTime`
guard skips the staleness block when the timestamp is absent, and in the
provider variants (and in the mock variant for a present-but-unparseable
string) the NaN hours value compares false against both 72 and 48. -/
theorem C10_missing_timestamp_green (now : ℚ) :
    Mock.calculateRiskLevel "in_transit" JsTime.absent now = "green" ∧
    Mock.calculateRiskLevel "in_transit" JsTime.invalid now = "green" ∧
    AfterShip.calculateRiskLevel "in_transit" JsTime.absent now = "green" ∧
    AfterShip.calculateRiskLevel "in_transit" JsTime.invalid now = "green" := by
  refine ⟨?_, ?_, ?_, ?_⟩
  all_goals
    first
      | (unfold Mock.calculateRiskLevel
         dsimp only
         rw [lower_in_transit]
         simp [JsTime.truthy, JsTime.hoursSince, nanGt])
      | (unfold AfterShip.calculateRiskLevel
         dsimp only
         rw [lower_in_transit]
         simp [JsTime.hoursSince, nanGt])

/-- `/^\d{lo,hi}$/`: an all-digit string of length between `lo` and `hi`. -/
def digitsLen (s : String) (lo hi : Nat) : Bool :=
  s.data.all Char.isDigit && lo ≤ s.data.length && s.data.length ≤ hi

/-- `/^(94|92|93|95)\d{20}$/`: the USPS service-prefix pattern of the
AfterShip v4 variant. -/
def uspsServicePattern (s : String) : Bool :=
  match s.data with
  | c1 :: c2 :: rest =>
    c1 = '9' && (c2 = '4' || c2 = '2' || c2 = '3' || c2 = '5') &&
      rest.length = 20 && rest.all Char.isDigit
  | _ => false

/-- `/^1Z[A-Z0-9]{16}$/` (case-sensitive, as in the early mock variant). -/
def upsPatternCS (s : String) : Bool :=
  match s.data with
  | c1 :: c2 :: rest =>
    c1 = '1' && c2 = 'Z' && rest.length = 16 &&
      rest.all (fun c => c.isUpper || c.isDigit)
  | _ => false

/-- `/^1Z[A-Z0-9]{16}$/i` (case-insensitive, as in the AfterShip variants). -/
def upsPatternCI (s : String) : Bool :=
  match s.data with
  | c1 :: c2 :: rest =>
    c1 = '1' && (c2 = 'Z' || c2 = 'z') && rest.length = 16 &&
      rest.all Char.isAlphanum
  | _ => false

namespace Mock

/-- `detectCarrier` from the early mock variant of
`services/trackingService.js` (lines 166-183): USPS 20-22 digits, then
UPS `1Z` + 16 uppercase alphanumerics, then FedEx 12-14 digits, and
`null` when nothing matches. -/
def detectCarrier (trackingNumber : String) : Option String :=
  if digitsLen trackingNumber 20 22 then some "USPS"
  else if upsPatternCS trackingNumber then some "UPS"
  else if digitsLen trackingNumber 12 14 then some "FedEx"
  else none

end Mock

namespace AfterShip

/-- `detectCarrier` from the AfterShip v4 variant of
`services/trackingService.js` (lines 452-472): `null` for a falsy input,
USPS for 20-22 digits or the `(94|92|93|95)\d{20}` pattern, UPS for the
case-insensitive `1Z` pattern, FedEx for 12-14 digits, and the slug
"usps" as the default fallback. -/
def detectCarrier (trackingNumber : String) : Option String :=
  if trackingNumber = "" then none
  else if digitsLen trackingNumber 20 22 || uspsServicePattern trackingNumber then some "usps"
  else if upsPatternCI trackingNumber then some "ups"
  else if digitsLen trackingNumber 12 14 then some "fedex"
  else some "usps"

end AfterShip

/-- Claim C6 counterexample: the early mock variant's `detectCarrier`
(trackingService.js lines 166-183, the first code location the claim
cites) returns `null` for the unmatched string "garbage", not the slug
"usps". -/
theorem C6_detectCarrier_counterexample :
    Mock.detectCarrier "garbage" = none ∧
    Mock.detectCarrier "garbage" ≠ some "usps" := by
  refine ⟨?_, ?_⟩ <;> decide

/-- Claim C6 (amended): in the AfterShip variants, `detectCarrier` of any
non-empty string matching none of the USPS/UPS/FedEx patterns is the slug
"usps" (and the spec's four examples evaluate as stated); the early mock
variant instead returns `null` when no pattern matches. -/
theorem C6_detectCarrier_amended (s : String) :
    (s ≠ "" → digitsLen s 20 22 = false → uspsServicePattern s = false →
      upsPatternCI s = false → digitsLen s 12 14 = false →
      AfterShip.detectCarrier s = some "usps") ∧
    AfterShip.detectCarrier "garbage" = some "usps" ∧
    AfterShip.detectCarrier "1Z999AA10123456784" = some "ups" ∧
    AfterShip.detectCarrier "9400100000000000000000" = some "usps" ∧
    AfterShip.detectCarrier "123456789012" = some "fedex" := by
  refine ⟨?_, by decide, by decide, by decide, by decide⟩
  intro h1 h2 h3 h4 h5
  unfold AfterShip.detectCarrier
  simp [h1, h2, h3, h4, h5]

/-- Witness for C6 (amended) at the unmatched input "garbage". -/
theorem C6_detectCarrier_amended_witness :
    AfterShip.detectCarrier "garbage" = some "usps" :=
  (C6_detectCarrier_amended "garbage").1 (by decide) (by decide) (by decide)
    (by decide) (by decide)

/-- The universal status vocabulary listed in `normalizeTrackingData`'s
comment block and in the spec's NormalizedTracking contract. -/
def universalStatuses : List String :=
  ["pre_transit", "in_transit", "out_for_delivery", "delivered",
   "exception", "delivery_failed", "lost", "unknown"]

/-- The universal output record of every normalizer.  Fields a JS branch
does not set (`deliveryDate`, `error`) default to `none`, matching the
absent object keys. -/
structure NormalizedTracking where
  status : String
  riskLevel : String
  carrier : String
  lastUpdate : ℚ
  location : Option String
  message : Option String
  deliveryDate : Option ℚ := none
  error : Option String := none
deriving DecidableEq

/-- `if (x) parts.push(x)`: a truthy (non-empty) string contributes one
element to the location parts list. -/
def pushIf (s : Option String) : List String :=
  match s with
  | some v => if v = "" then [] else [v]
  | none => []

namespace AfterShip

/-- One element of `tracking.checkpoints` as the AfterShip normalizers
read it.  `checkpoint_time` is modelled as already parsed into epoch
milliseconds (`none` = absent/empty), per the provider contract of
ISO-8601 checkpoint times. -/
structure Checkpoint where
  checkpoint_time : Option ℚ
  city : Option String
  state : Option String
  country_iso3 : Option String
  message : Option String
  subtag_message : Option String
deriving DecidableEq

/-- The fields of an AfterShip tracking object that
`normalizeAfterShipData` reads (`created_at` and `expected_delivery`
parsed to epoch milliseconds). -/
structure Tracking where
  tag : Option String
  checkpoints : List Checkpoint
  slug : Option String
  created_at : Option ℚ
  expected_delivery : Option ℚ
deriving DecidableEq

/-- The OWN properties of the `statusMap` object literal of
`normalizeAfterShipData` (trackingService.js lines 335-345, identical in
part_012 lines 152-162): AfterShip tag to universal status, `none` when
the table itself has no such key.  The JS bracket lookup
`statusMap[tag]` additionally walks the prototype chain; that full
semantics is `statusMapLookup` below. -/
def statusMap (tag : String) : Option String :=
  if tag = "Pending" then some "pre_transit"
  else if tag = "InfoReceived" then some "pre_transit"
  else if tag = "InTransit" then some "in_transit"
  else if tag = "OutForDelivery" then some "out_for_delivery"
  else if tag = "AttemptFail" then some "delivery_failed"
  else if tag = "Delivered" then some "delivered"
  else if tag = "Exception" then some "exception"
  else if tag = "Expired" then some "lost"
  else if tag = "AvailableForPickup" then some "out_for_delivery"
  else none

/-- `const aftershipTag = tracking.tag || 'Pending'; const status =
statusMap[aftershipTag] || 'unknown';` -/
def statusOf (tr : Tracking) : String :=
  (statusMap (jsOrStr tr.tag "Pending")).getD "unknown"

/-- `checkpoints.length > 0 ? checkpoints[checkpoints.length - 1] : null`
(the LAST element of the checkpoint list — AfterShip orders checkpoints
oldest-first). -/
def latestOf (tr : Tracking) : Option Checkpoint :=
  tr.checkpoints.getLast?

/-- `latestCheckpoint?.checkpoint_time ? new Date(...) : new
Date(tracking.created_at || Date.now())`. -/
def lastUpdateOf (tr : Tracking) (now : ℚ) : ℚ :=
  match latestOf tr with
  | some cp =>
    match cp.checkpoint_time with
    | some ts => ts
    | none => tr.created_at.getD now
  | none => tr.created_at.getD now

/-- The location builder of lines 362-369: push the truthy ones among
city/state/country_iso3, join with ", ", and `|| null` the result. -/
def locationOf (tr : Tracking) : Option String :=
  match latestOf tr with
  | none => none
  | some cp =>
    let parts := pushIf cp.city ++ pushIf cp.state ++ pushIf cp.country_iso3
    let joined := String.intercalate ", " parts
    if joined = "" then none else some joined

/-- `latestCheckpoint?.message || latestCheckpoint?.subtag_message ||
null`. -/
def messageOf (tr : Tracking) : Option String :=
  match latestOf tr with
  | none => none
  | some cp => jsOrOpt cp.message (jsOrOpt cp.subtag_message none)

/-- `normalizeAfterShipData` (trackingService.js lines 322-380); the
`null`-tracking guard of lines 323-332 is the `none` branch. -/
def normalizeAfterShipData (tracking : Option Tracking) (now : ℚ) : NormalizedTracking :=
  match tracking with
  | none =>
    { status := "unknown", riskLevel := "yellow", carrier := "unknown",
      lastUpdate := now, location := none, message := none }
  | some tr =>
    { status := statusOf tr
      riskLevel := calculateRiskLevel (statusOf tr) (JsTime.time (lastUpdateOf tr now)) now
      carrier := jsOrStr tr.slug "unknown"
      lastUpdate := lastUpdateOf tr now
      location := locationOf tr
      message := messageOf tr
      deliveryDate := tr.expected_delivery }

end AfterShip

namespace Mock

/-- `tracking_location` of a mock tracking detail. -/
structure TrackingLocation where
  city : String
  state : String
deriving DecidableEq

/-- One element of `carrierResponse.tracking_details`; `datetime` is
modelled as parsed epoch milliseconds (`none` = absent). -/
structure TrackingDetail where
  datetime : Option ℚ
  message : Option String
  tracking_location : Option TrackingLocation
deriving DecidableEq

/-- A raw mock/EasyPost-style carrier response. -/
structure CarrierResponse where
  status : Option String
  carrier : Option String
  tracking_details : List TrackingDetail
deriving DecidableEq

/-- `normalizeTrackingData` from the early mock variant
(trackingService.js lines 83-113).  Note that `status` is only
lowercased, never looked up in a mapping table, so whatever token the
carrier response carries flows straight into the output. -/
def normalizeTrackingData (carrierResponse : CarrierResponse) (now : ℚ) : NormalizedTracking :=
  let status := jsOrStr carrierResponse.status "unknown"
  let carrier := jsOrStr carrierResponse.carrier "unknown"
  -- `carrierResponse.tracking_details?.[0] || {}`
  let latestEvent := carrierResponse.tracking_details.head?
  let datetime : JsTime :=
    match latestEvent with
    | some ev => match ev.datetime with
      | some ts => JsTime.time ts
      | none => JsTime.absent
    | none => JsTime.absent
  { status := jsToLower status
    riskLevel := calculateRiskLevel status datetime now
    carrier := carrier
    lastUpdate := match datetime with
      | JsTime.time ts => ts
      | _ => now
    location := match latestEvent with
      | some ev => match ev.tracking_location with
        | some loc => some (loc.city ++ ", " ++ loc.state)
        | none => none
      | none => none
    message := match latestEvent with
      | some ev => jsOrOpt ev.message none
      | none => none }

end Mock

namespace Track17

/-- A 17TRACK checkpoint: `a` is a Unix timestamp in seconds, `c` the
location string, `z` the message. -/
structure T17Checkpoint where
  a : Option Int
  c : Option String
  z : Option String
deriving DecidableEq

/-- The `track` object of a 17TRACK accepted entry: `e` is the status
code, `b` the carrier code, `z1`/`z0` the latest/origin event arrays. -/
structure T17Track where
  e : Option Int
  b : Option Int
  z1 : Option (List T17Checkpoint)
  z0 : Option (List T17Checkpoint)
deriving DecidableEq

/-- One entry of `apiResponse.data.accepted`. -/
structure T17Accepted where
  number : String
  track : Option T17Track
deriving DecidableEq

/-- The `statusMap` table of `normalize17TrackData` (part_009 lines
146-154): 17TRACK status code `e` to universal status. -/
def statusMap (code : Int) : Option String :=
  if code = 0 then some "unknown"
  else if code = 10 then some "in_transit"
  else if code = 20 then some "pre_transit"
  else if code = 30 then some "out_for_delivery"
  else if code = 35 then some "delivery_failed"
  else if code = 40 then some "delivered"
  else if code = 50 then some "exception"
  else none

/-- The `CARRIER_CODES` table (part_009 lines 8-13). -/
def CARRIER_CODES : List (String × Int) :=
  [("usps", 21051), ("ups", 100002), ("fedex", 100003), ("dhl", 100001)]

/-- `getCarrierName` (part_009 lines 247-252): the first table entry
whose code strictly equals the argument, else "unknown" (an absent code
equals nothing). -/
def getCarrierName (carrierCode : Option Int) : String :=
  match CARRIER_CODES.find? (fun p => carrierCode = some p.2) with
  | some p => p.1
  | none => "unknown"

/-- `normalize17TrackData` (part_009 lines 125-194), with the
`apiResponse.data?.accepted || []` list passed in directly.  The risk
classifier it calls (part_009 lines 200-230) is the
`AfterShip.calculateRiskLevel` embedding, to which it is line-for-line
identical. -/
def normalize17TrackData (accepted : List T17Accepted) (trackingNumber : String) (now : ℚ) : NormalizedTracking :=
  match (accepted.find? (fun t => t.number = trackingNumber)).bind (fun t => t.track) with
  | none =>
    { status := "unknown", riskLevel := "yellow", carrier := "unknown",
      lastUpdate := now, location := none,
      message := some "No tracking data available" }
  | some trackInfo =>
    let statusCode := trackInfo.e.getD 0
    let status := (statusMap statusCode).getD "unknown"
    -- `trackInfo.z1 || trackInfo.z0 || []` (a present empty array is truthy)
    let checkpoints :=
      match trackInfo.z1 with
      | some l => l
      | none => match trackInfo.z0 with
        | some l => l
        | none => []
    -- `checkpoints.length > 0 ? checkpoints[0] : null` — newest first
    let latestCheckpoint := checkpoints.head?
    let lastUpdate : ℚ :=
      match latestCheckpoint with
      | some cp => match cp.a with
        | some secs => if secs = 0 then now else (secs : ℚ) * 1000
        | none => now
      | none => now
    let location :=
      match latestCheckpoint with
      | some cp => jsOrOpt cp.c none
      | none => none
    let message :=
      match latestCheckpoint with
      | some cp => jsOrOpt cp.z none
      | none => none
    { status := status
      riskLevel := AfterShip.calculateRiskLevel status (JsTime.time lastUpdate) now
      carrier := jsOrStr (some (getCarrierName trackInfo.b)) "unknown"
      lastUpdate := lastUpdate
      location := location
      message := message }

end Track17

namespace AfterShip

/-- The property names every plain JS object inherits from
`Object.prototype`.  A bracket lookup `statusMap[tag]` on the object
literal finds these even though they are not own properties of the
table, and each yields a truthy non-string value (a function, or for
`__proto__` an object) rather than `undefined`. -/
def objectProtoKeys : List String :=
  ["constructor", "hasOwnProperty", "isPrototypeOf", "propertyIsEnumerable",
   "toLocaleString", "toString", "valueOf", "__proto__",
   "__defineGetter__", "__defineSetter__", "__lookupGetter__", "__lookupSetter__"]

/-- The result of the JS bracket lookup `statusMap[aftershipTag]`: an own
property of the table (a status string), a truthy non-string member
inherited from `Object.prototype`, or `undefined`. -/
inductive TagLookup where
  | own (status : String)
  | inherited
  | undef
deriving DecidableEq

/-- `statusMap[tag]` with its real JS semantics: own properties of the
object literal shadow the prototype; an unmapped tag that names an
`Object.prototype` member yields the inherited value; anything else is
`undefined`. -/
def statusMapLookup (tag : String) : TagLookup :=
  match statusMap tag with
  | some s => TagLookup.own s
  | none => if tag ∈ objectProtoKeys then TagLookup.inherited else TagLookup.undef

/-- `normalizeAfterShipData` as the raw JS executes, including the
`Object.prototype` lookup pitfall: when `statusMap[aftershipTag]` finds
an inherited member, `status = statusMap[aftershipTag] || 'unknown'`
becomes that truthy non-string, and the `status.toLowerCase()` call
inside `calculateRiskLevel` throws a TypeError before any record is
built — modelled as `Except.error`.  On every input whose lookup is not
`inherited` this agrees with the total `normalizeAfterShipData` (see
`normalizeE_agrees`); upstream, `checkTrackingStatus`'s catch block
absorbs the thrown error like any other failure. -/
def normalizeAfterShipDataE (tracking : Option Tracking) (now : ℚ) : Except String NormalizedTracking :=
  match tracking with
  | none =>
    Except.ok { status := "unknown", riskLevel := "yellow", carrier := "unknown",
                lastUpdate := now, location := none, message := none }
  | some tr =>
    match statusMapLookup (jsOrStr tr.tag "Pending") with
    | TagLookup.inherited => Except.error "status.toLowerCase is not a function"
    | TagLookup.own s =>
      Except.ok { status := s
                  riskLevel := calculateRiskLevel s (JsTime.time (lastUpdateOf tr now)) now
                  carrier := jsOrStr tr.slug "unknown"
                  lastUpdate := lastUpdateOf tr now
                  location := locationOf tr
                  message := messageOf tr
                  deliveryDate := tr.expected_delivery }
    | TagLookup.undef =>
      Except.ok { status := "unknown"
                  riskLevel := calculateRiskLevel "unknown" (JsTime.time (lastUpdateOf tr now)) now
                  carrier := jsOrStr tr.slug "unknown"
                  lastUpdate := lastUpdateOf tr now
                  location := locationOf tr
                  message := messageOf tr
                  deliveryDate := tr.expected_delivery }

end AfterShip


lemma statusMap_getD_mem (tag : String) :
    (AfterShip.statusMap tag).getD "unknown" ∈ universalStatuses := by
  unfold AfterShip.statusMap
  repeat' split
  all_goals decide

lemma aftership_normalize_status_mem (tracking : Option AfterShip.Tracking) (now : ℚ) :
    (AfterShip.normalizeAfterShipData tracking now).status ∈ universalStatuses := by
  cases tracking with
  | none =>
    have h : (AfterShip.normalizeAfterShipData none now).status = "unknown" := rfl
    rw [h]
    decide
  | some tr =>
    have h : (AfterShip.normalizeAfterShipData (some tr) now).status
        = (AfterShip.statusMap (jsOrStr tr.tag "Pending")).getD "unknown" := rfl
    rw [h]
    exact statusMap_getD_mem _

lemma aftership_normalize_risk_mem (tracking : Option AfterShip.Tracking) (now : ℚ) :
    (AfterShip.normalizeAfterShipData tracking now).riskLevel ∈ riskSet := by
  cases tracking with
  | none =>
    have h : (AfterShip.normalizeAfterShipData none now).riskLevel = "yellow" := rfl
    rw [h]
    decide
  | some tr =>
    have h : (AfterShip.normalizeAfterShipData (some tr) now).riskLevel
        = AfterShip.calculateRiskLevel (AfterShip.statusOf tr)
            (JsTime.time (AfterShip.lastUpdateOf tr now)) now := rfl
    rw [h]
    exact aftership_risk_mem _ _ _

/-- Claim C3 counterexample: the mock-variant normalizer
(`normalizeTrackingData`, the first code location the claim cites) fed a
raw record with the unrecognized native token "Shipped" outputs the
native token lowercased, not "unknown" — the provider vocabulary leaks
into the output and the status is outside the closed set. -/
theorem C3_normalizer_counterexample :
    (Mock.normalizeTrackingData ⟨some "Shipped", some "USPS", []⟩ 0).status = "shipped" ∧
    (Mock.normalizeTrackingData ⟨some "Shipped", some "USPS", []⟩ 0).status ∉ universalStatuses := by
  refine ⟨?_, ?_⟩ <;> decide

lemma statusMap_own_mem (tag s : String) (h : AfterShip.statusMap tag = some s) :
    s ∈ universalStatuses := by
  unfold AfterShip.statusMap at h
  repeat' split at h
  all_goals simp_all [universalStatuses]

lemma statusMapLookup_own (tag s : String)
    (h : AfterShip.statusMapLookup tag = AfterShip.TagLookup.own s) :
    AfterShip.statusMap tag = some s := by
  unfold AfterShip.statusMapLookup at h
  cases hm : AfterShip.statusMap tag with
  | none =>
    rw [hm] at h
    by_cases hk : tag ∈ AfterShip.objectProtoKeys
    · rw [if_pos hk] at h
      exact absurd h (by simp)
    · rw [if_neg hk] at h
      exact absurd h (by simp)
  | some v =>
    rw [hm] at h
    simp_all

lemma statusMapLookup_undef (tag : String)
    (h : AfterShip.statusMapLookup tag = AfterShip.TagLookup.undef) :
    AfterShip.statusMap tag = none := by
  unfold AfterShip.statusMapLookup at h
  cases hm : AfterShip.statusMap tag with
  | none => rfl
  | some v =>
    rw [hm] at h
    simp_all

lemma normalizeE_ok_mem (tracking : Option AfterShip.Tracking) (now : ℚ)
    (r : NormalizedTracking)
    (h : AfterShip.normalizeAfterShipDataE tracking now = Except.ok r) :
    r.status ∈ universalStatuses ∧ r.riskLevel ∈ riskSet := by
  cases tracking with
  | none =>
    simp only [AfterShip.normalizeAfterShipDataE] at h
    injection h with h
    subst h
    refine ⟨?_, ?_⟩
    · show "unknown" ∈ universalStatuses
      decide
    · show "yellow" ∈ riskSet
      decide
  | some tr =>
    simp only [AfterShip.normalizeAfterShipDataE] at h
    cases hl : AfterShip.statusMapLookup (jsOrStr tr.tag "Pending") with
    | own s =>
      rw [hl] at h
      injection h with h
      subst h
      refine ⟨statusMap_own_mem _ _ (statusMapLookup_own _ _ hl), ?_⟩
      show AfterShip.calculateRiskLevel s
          (JsTime.time (AfterShip.lastUpdateOf tr now)) now ∈ riskSet
      exact aftership_risk_mem _ _ _
    | inherited =>
      rw [hl] at h
      simp at h
    | undef =>
      rw [hl] at h
      injection h with h
      subst h
      refine ⟨?_, ?_⟩
      · show "unknown" ∈ universalStatuses
        decide
      · show AfterShip.calculateRiskLevel "unknown"
            (JsTime.time (AfterShip.lastUpdateOf tr now)) now ∈ riskSet
        exact aftership_risk_mem _ _ _

/-- Off the `inherited` case, the exception-aware embedding agrees with
the total one used by the other theorems. -/
lemma normalizeE_agrees (tracking : Option AfterShip.Tracking) (now : ℚ)
    (h : ∀ tr, tracking = some tr →
      AfterShip.statusMapLookup (jsOrStr tr.tag "Pending") ≠ AfterShip.TagLookup.inherited) :
    AfterShip.normalizeAfterShipDataE tracking now
      = Except.ok (AfterShip.normalizeAfterShipData tracking now) := by
  cases tracking with
  | none => rfl
  | some tr =>
    have h2 := h tr rfl
    cases hl : AfterShip.statusMapLookup (jsOrStr tr.tag "Pending") with
    | own s =>
      have hst : AfterShip.statusOf tr = s := by
        unfold AfterShip.statusOf
        rw [statusMapLookup_own _ _ hl]
        rfl
      simp only [AfterShip.normalizeAfterShipDataE, AfterShip.normalizeAfterShipData,
        hl, hst]
    | inherited => exact absurd hl h2
    | undef =>
      have hst : AfterShip.statusOf tr = "unknown" := by
        unfold AfterShip.statusOf
        rw [statusMapLookup_undef _ hl]
        rfl
      simp only [AfterShip.normalizeAfterShipDataE, AfterShip.normalizeAfterShipData,
        hl, hst]

lemma track17_statusMap_getD_mem (code : Int) :
    (Track17.statusMap code).getD "unknown" ∈ universalStatuses := by
  unfold Track17.statusMap
  repeat' split
  all_goals decide

lemma track17_normalize_status_mem (accepted : List Track17.T17Accepted)
    (num : String) (now : ℚ) :
    (Track17.normalize17TrackData accepted num now).status ∈ universalStatuses := by
  cases hfind : (accepted.find? (fun t => t.number = num)).bind (fun t => t.track) with
  | none => simp [Track17.normalize17TrackData, hfind, universalStatuses]
  | some trackInfo =>
    simp only [Track17.normalize17TrackData, hfind]
    exact track17_statusMap_getD_mem _

lemma track17_normalize_risk_mem (accepted : List Track17.T17Accepted)
    (num : String) (now : ℚ) :
    (Track17.normalize17TrackData accepted num now).riskLevel ∈ riskSet := by
  cases hfind : (accepted.find? (fun t => t.number = num)).bind (fun t => t.track) with
  | none => simp [Track17.normalize17TrackData, hfind, riskSet]
  | some trackInfo =>
    simp only [Track17.normalize17TrackData, hfind]
    exact aftership_risk_mem _ _ _

lemma mock_normalize_risk_mem (cr : Mock.CarrierResponse) (now : ℚ) :
    (Mock.normalizeTrackingData cr now).riskLevel ∈ riskSet := by
  have h : (Mock.normalizeTrackingData cr now).riskLevel
      = Mock.calculateRiskLevel (jsOrStr cr.status "unknown")
          (match cr.tracking_details.head? with
           | some ev => match ev.datetime with
             | some ts => JsTime.time ts
             | none => JsTime.absent
           | none => JsTime.absent) now := rfl
  rw [h]
  exact mock_risk_mem _ _ _

/-- Claim C3 (amended): the AfterShip normalizer, embedded with the real
JS semantics of the `statusMap[tag]` bracket lookup, satisfies: every
record it returns has a status in the closed universal set and a
riskLevel in {green, yellow, red}; an unmapped tag that is not an
`Object.prototype` property name maps to "unknown" without raising; but
for an unmapped tag that IS an `Object.prototype` property name (e.g.
"toString") the lookup yields a truthy inherited non-string and the
normalizer throws a TypeError (absorbed upstream by
`checkTrackingStatus`'s catch).  The 17TRACK normalizer's numeric-code
table satisfies the status and riskLevel invariants unconditionally.
The mock-variant `normalizeTrackingData` instead passes the raw status
token through lowercased (the provider vocabulary leaks), though its
riskLevel does stay in the closed set. -/
theorem C3_normalizer_amended (tracking : Option AfterShip.Tracking) (now : ℚ)
    (accepted : List Track17.T17Accepted) (num : String) (cr : Mock.CarrierResponse) :
    (∀ r, AfterShip.normalizeAfterShipDataE tracking now = Except.ok r →
        r.status ∈ universalStatuses ∧ r.riskLevel ∈ riskSet) ∧
    (∀ tr : AfterShip.Tracking, tracking = some tr →
        AfterShip.statusMapLookup (jsOrStr tr.tag "Pending") = AfterShip.TagLookup.undef →
        ∃ r, AfterShip.normalizeAfterShipDataE tracking now = Except.ok r ∧
          r.status = "unknown") ∧
    (∀ tr : AfterShip.Tracking, tracking = some tr →
        AfterShip.statusMapLookup (jsOrStr tr.tag "Pending") = AfterShip.TagLookup.inherited →
        AfterShip.normalizeAfterShipDataE tracking now
          = Except.error "status.toLowerCase is not a function") ∧
    (Track17.normalize17TrackData accepted num now).status ∈ universalStatuses ∧
    (Track17.normalize17TrackData accepted num now).riskLevel ∈ riskSet ∧
    (Mock.normalizeTrackingData cr now).riskLevel ∈ riskSet := by
  refine ⟨fun r h => normalizeE_ok_mem tracking now r h, ?_, ?_,
          track17_normalize_status_mem accepted num now,
          track17_normalize_risk_mem accepted num now,
          mock_normalize_risk_mem cr now⟩
  · rintro tr rfl hl
    simp only [AfterShip.normalizeAfterShipDataE]
    rw [hl]
    exact ⟨_, rfl, rfl⟩
  · rintro tr rfl hl
    simp only [AfterShip.normalizeAfterShipDataE]
    rw [hl]

/-- An AfterShip tracking object whose tag is not in the mapping table
and is not an Object.prototype property name. -/
def shippedTracking : AfterShip.Tracking :=
  { tag := some "Shipped", checkpoints := [], slug := some "usps",
    created_at := none, expected_delivery := none }

/-- An AfterShip tracking object whose tag names an Object.prototype
member, triggering the inherited-lookup TypeError. -/
def toStringTracking : AfterShip.Tracking :=
  { tag := some "toString", checkpoints := [], slug := none,
    created_at := none, expected_delivery := none }

/-- Witness for C3 (amended): the unrecognized tag "Shipped" normalizes
to status "unknown" without raising, while the prototype-inherited tag
"toString" makes the normalizer throw. -/
theorem C3_normalizer_amended_witness :
    (∃ r, AfterShip.normalizeAfterShipDataE (some shippedTracking) 0 = Except.ok r ∧
        r.status = "unknown") ∧
    AfterShip.normalizeAfterShipDataE (some toStringTracking) 0
      = Except.error "status.toLowerCase is not a function" :=
  ⟨(C3_normalizer_amended (some shippedTracking) 0 [] "x" ⟨none, none, []⟩).2.1
      shippedTracking rfl (by decide),
   (C3_normalizer_amended (some toStringTracking) 0 [] "x" ⟨none, none, []⟩).2.2.1
      toStringTracking rfl (by decide)⟩

/-- An oldest-first pair of AfterShip checkpoints. -/
def cpFirst : AfterShip.Checkpoint :=
  { checkpoint_time := some 1000, city := some "Memphis", state := some "TN",
    country_iso3 := none, message := some "Arrived at facility", subtag_message := none }

def cpSecond : AfterShip.Checkpoint :=
  { checkpoint_time := some 2000, city := some "Nashville", state := some "TN",
    country_iso3 := none, message := some "Departed facility", subtag_message := none }

def twoEventTracking : AfterShip.Tracking :=
  { tag := some "InTransit", checkpoints := [cpFirst, cpSecond], slug := some "usps",
    created_at := none, expected_delivery := none }

/-- Claim C8 counterexample: the AfterShip normalizer (the first code
location the claim cites) extracts the message of the LAST element of
the checkpoint list, not the element at index 0. -/
theorem C8_index0_counterexample :
    (AfterShip.normalizeAfterShipData (some twoEventTracking) 2000).message
        = some "Departed facility" ∧
    twoEventTracking.checkpoints.head? = some cpFirst ∧
    (AfterShip.normalizeAfterShipData (some twoEventTracking) 2000).message
        ≠ cpFirst.message := by
  refine ⟨?_, ?_, ?_⟩ <;> decide

/-- Claim C8 (amended): each normalizer selects the most recent event
according to its own provider's ordering, with no reordering at the
adapter boundary: the AfterShip normalizers take the element at the LAST
index of `checkpoints` (AfterShip orders events oldest-first), while the
17TRACK normalizer takes the element at index 0 of `z1` (17TRACK returns
newest first). -/
theorem C8_latest_event_amended (now : ℚ)
    (tr : AfterShip.Tracking) (pre : List AfterShip.Checkpoint) (cp : AfterShip.Checkpoint)
    (h : tr.checkpoints = pre ++ [cp])
    (num : String) (t17 : Track17.T17Track)
    (c17 : Track17.T17Checkpoint) (rest : List Track17.T17Checkpoint)
    (hz : t17.z1 = some (c17 :: rest)) :
    (AfterShip.normalizeAfterShipData (some tr) now).message
        = jsOrOpt cp.message (jsOrOpt cp.subtag_message none) ∧
    (AfterShip.normalizeAfterShipData (some tr) now).lastUpdate
        = (match cp.checkpoint_time with
           | some ts => ts
           | none => tr.created_at.getD now) ∧
    (Track17.normalize17TrackData [⟨num, some t17⟩] num now).message
        = jsOrOpt c17.z none := by
  have hlast : AfterShip.latestOf tr = some cp := by
    unfold AfterShip.latestOf
    rw [h]
    exact List.getLast?_concat pre
  refine ⟨?_, ?_, ?_⟩
  · have hm : (AfterShip.normalizeAfterShipData (some tr) now).message
        = AfterShip.messageOf tr := rfl
    rw [hm]
    unfold AfterShip.messageOf
    rw [hlast]
  · have hu : (AfterShip.normalizeAfterShipData (some tr) now).lastUpdate
        = AfterShip.lastUpdateOf tr now := rfl
    rw [hu]
    unfold AfterShip.lastUpdateOf
    rw [hlast]
  · unfold Track17.normalize17TrackData
    simp [List.find?, hz]

/-- A newest-first 17TRACK track object with two events in `z1`. -/
def t17Example : Track17.T17Track :=
  { e := some 10, b := some 21051,
    z1 := some [⟨some 5, some "Chicago", some "Departed"⟩,
                ⟨some 3, some "New York", some "Accepted"⟩],
    z0 := none }

/-- Witness for C8 (amended) on concrete two-event records. -/
theorem C8_latest_event_amended_witness :
    (AfterShip.normalizeAfterShipData (some twoEventTracking) 2000).message
        = some "Departed facility" ∧
    (Track17.normalize17TrackData [⟨"9400111899223100000000", some t17Example⟩]
        "9400111899223100000000" 0).message = some "Departed" := by
  have h := C8_latest_event_amended 2000 twoEventTracking [cpFirst] cpSecond rfl
      "9400111899223100000000" t17Example
      ⟨some 5, some "Chicago", some "Departed"⟩
      [⟨some 3, some "New York", some "Accepted"⟩] rfl
  exact ⟨h.1.trans (by decide), h.2.2.trans (by decide)⟩

namespace AfterShip

/-- The outcome of the Adapter's provider interaction inside the `try`
block of `checkTrackingStatus` (the `createTracking`/`getTracking` HTTP
calls plus JSON handling): `ok` carries the tracking object the calls
produced (possibly null), `failure` carries the message of the error
thrown on any network failure, non-2xx response, timeout or malformed
response. -/
inductive ProviderOutcome where
  | ok (tracking : Option Tracking)
  | failure (msg : String)

/-- `getMockTrackingData` (trackingService.js lines 477-489). -/
def getMockTrackingData (trackingNumber : String) (carrier : Option String) (now : ℚ) : NormalizedTracking :=
  { status := "in_transit"
    riskLevel := "green"
    carrier := jsOrStr carrier (jsOrStr (detectCarrier trackingNumber) "usps")
    lastUpdate := now
    location := some "Los Angeles, CA"
    message := some "Package is in transit"
    deliveryDate := none }

/-- `checkTrackingStatus` (trackingService.js lines 200-245): with a
falsy API key it short-circuits to the mock record; otherwise the `try`
block's provider outcome is either a tracking object passed to
`normalizeAfterShipData` or a thrown error converted by the `catch`
block into the fixed fallback record (the function is total — no
exception reaches the caller). -/
def checkTrackingStatus (apiKey : Option String) (trackingNumber : String)
    (carrier : Option String) (outcome : ProviderOutcome) (now : ℚ) : NormalizedTracking :=
  if !(jsTruthyStr apiKey) then getMockTrackingData trackingNumber carrier now
  else
    match outcome with
    | .ok tracking => normalizeAfterShipData tracking now
    | .failure msg =>
      { status := "unknown"
        riskLevel := "yellow"
        carrier := jsOrStr carrier (jsOrStr (detectCarrier trackingNumber) "unknown")
        lastUpdate := now
        location := none
        message := none
        error := some msg }

end AfterShip

/-- Claim C1: whenever the configured provider call fails for any reason
(the thrown error's message being arbitrary), `checkTrackingStatus`
returns the well-formed fallback record with status "unknown", riskLevel
"yellow", null location and the failure message in `error`; the
embedding is a total function, so no exception propagates. -/
theorem C1_failure_fallback (apiKey : Option String) (trackingNumber : String)
    (carrier : Option String) (msg : String) (now : ℚ)
    (hkey : jsTruthyStr apiKey = true) :
    (AfterShip.checkTrackingStatus apiKey trackingNumber carrier
        (AfterShip.ProviderOutcome.failure msg) now).status = "unknown" ∧
    (AfterShip.checkTrackingStatus apiKey trackingNumber carrier
        (AfterShip.ProviderOutcome.failure msg) now).riskLevel = "yellow" ∧
    (AfterShip.checkTrackingStatus apiKey trackingNumber carrier
        (AfterShip.ProviderOutcome.failure msg) now).location = none ∧
    (AfterShip.checkTrackingStatus apiKey trackingNumber carrier
        (AfterShip.ProviderOutcome.failure msg) now).error = some msg := by
  unfold AfterShip.checkTrackingStatus
  rw [hkey]
  exact ⟨rfl, rfl, rfl, rfl⟩

/-- Witness for C1: a configured key and a simulated network failure. -/
theorem C1_failure_fallback_witness :
    (AfterShip.checkTrackingStatus (some "test-key") "1Z999AA10123456784" none
        (AfterShip.ProviderOutcome.failure "fetch failed") 0).status = "unknown" ∧
    (AfterShip.checkTrackingStatus (some "test-key") "1Z999AA10123456784" none
        (AfterShip.ProviderOutcome.failure "fetch failed") 0).riskLevel = "yellow" ∧
    (AfterShip.checkTrackingStatus (some "test-key") "1Z999AA10123456784" none
        (AfterShip.ProviderOutcome.failure "fetch failed") 0).location = none ∧
    (AfterShip.checkTrackingStatus (some "test-key") "1Z999AA10123456784" none
        (AfterShip.ProviderOutcome.failure "fetch failed") 0).error = some "fetch failed" :=
  C1_failure_fallback (some "test-key") "1Z999AA10123456784" none "fetch failed" 0 (by decide)

/-- Claim C7: with no (or an empty) provider API key configured,
`checkTrackingStatus` short-circuits to the fixed mock record — status
"in_transit", riskLevel "green", non-null default location — whatever
the provider outcome would have been. -/
theorem C7_no_credential_mock (apiKey : Option String) (trackingNumber : String)
    (carrier : Option String) (outcome : AfterShip.ProviderOutcome) (now : ℚ)
    (hkey : jsTruthyStr apiKey = false) :
    AfterShip.checkTrackingStatus apiKey trackingNumber carrier outcome now
        = AfterShip.getMockTrackingData trackingNumber carrier now ∧
    (AfterShip.checkTrackingStatus apiKey trackingNumber carrier outcome now).status
        = "in_transit" ∧
    (AfterShip.checkTrackingStatus apiKey trackingNumber carrier outcome now).riskLevel
        = "green" ∧
    (AfterShip.checkTrackingStatus apiKey trackingNumber carrier outcome now).location
        = some "Los Angeles, CA" := by
  unfold AfterShip.checkTrackingStatus
  rw [hkey]
  exact ⟨rfl, rfl, rfl, rfl⟩

/-- Witness for C7: no API key configured at all. -/
theorem C7_no_credential_mock_witness :
    (AfterShip.checkTrackingStatus none "1Z999AA10123456784" none
        (AfterShip.ProviderOutcome.failure "unreachable") 0).status = "in_transit" ∧
    (AfterShip.checkTrackingStatus none "1Z999AA10123456784" none
        (AfterShip.ProviderOutcome.failure "unreachable") 0).riskLevel = "green" ∧
    (AfterShip.checkTrackingStatus none "1Z999AA10123456784" none
        (AfterShip.ProviderOutcome.failure "unreachable") 0).location
        = some "Los Angeles, CA" :=
  ⟨(C7_no_credential_mock none "1Z999AA10123456784" none
      (AfterShip.ProviderOutcome.failure "unreachable") 0 (by decide)).2.1,
   (C7_no_credential_mock none "1Z999AA10123456784" none
      (AfterShip.ProviderOutcome.failure "unreachable") 0 (by decide)).2.2.1,
   (C7_no_credential_mock none "1Z999AA10123456784" none
      (AfterShip.ProviderOutcome.failure "unreachable") 0 (by decide)).2.2.2⟩

/-- `needle` occurs as a contiguous substring of `hay`. -/
def containsSub (needle hay : String) : Prop :=
  ∃ a b : List Char, hay.data = a ++ needle.data ++ b

namespace Messages

/-- The template record produced by `getMessageTemplate`. -/
structure MessageTemplate where
  subject : String
  message : String
  tone : String
  copyable : Bool
deriving DecidableEq

/-- `getMessageTemplate` from `backend/src/utils/messageTemplates.js`
(lines 4-77).  `status || "unknown"` and `riskLevel || "green"` are the
JS null/empty coalescing; the nested early returns inside the red and
yellow blocks fall through to the later status tests when the inner
condition fails, exactly as in the source. -/
def getMessageTemplate (status riskLevel : Option String) (orderId : String) : MessageTemplate :=
  let s := jsToLower (jsOrStr status "unknown")
  let r := jsToLower (jsOrStr riskLevel "green")
  if r = "red" && (s = "exception" || s = "delivery_failed") then
    { subject := "Important update about your order " ++ orderId
      message := "Hi there! I wanted to reach out about your order " ++ orderId ++
        ". The tracking shows there\x27s been a delivery issue. I\x27m actively working with the carrier to resolve this and will send you an update within 24 hours. Your satisfaction is my priority!"
      tone := "urgent"
      copyable := true }
  else if r = "red" && (s = "lost" || s = "unknown") then
    { subject := "Quick check-in about your order " ++ orderId
      message := "Hi! I noticed the tracking for your order " ++ orderId ++
        " hasn\x27t updated in a while. I\x27m checking with the carrier now. If we don\x27t see movement in the next 48 hours, I\x27ll send a replacement right away. Thanks for your patience!"
      tone := "urgent"
      copyable := true }
  else if r = "yellow" && (s = "in_transit" || s = "pre_transit") then
    { subject := "Your order " ++ orderId ++ " is on its way!"
      message := "Hi! Just wanted to give you a quick update - your order " ++ orderId ++
        " is in transit but running a bit slower than usual. Carriers are experiencing some delays, but your package is moving. I\x27m keeping an eye on it and will update you if anything changes!"
      tone := "reassuring"
      copyable := true }
  else if s = "delivered" then
    { subject := "Your order " ++ orderId ++ " has been delivered!"
      message := "Great news! Your order " ++ orderId ++
        " shows as delivered. I hope you love it! If you have any questions or concerns, please don\x27t hesitate to reach out. I\x27d really appreciate it if you could leave a review when you get a chance. Thanks for your order!"
      tone := "positive"
      copyable := true }
  else if s = "out_for_delivery" then
    { subject := "Your order " ++ orderId ++ " is out for delivery today!"
      message := "Exciting news! Your order " ++ orderId ++
        " is out for delivery and should arrive today. Keep an eye out for the carrier. If you have any questions, I\x27m here to help!"
      tone := "positive"
      copyable := true }
  else if s = "in_transit" then
    { subject := "Your order " ++ orderId ++ " is on the way!"
      message := "Hi! Your order " ++ orderId ++
        " is in transit and making good progress. You can expect it to arrive soon. I\x27m tracking it closely and will let you know if there are any updates. Thanks for your order!"
      tone := "neutral"
      copyable := true }
  else
    { subject := "Update on your order " ++ orderId
      message := "Hi! I wanted to check in about your order " ++ orderId ++
        ". I\x27m monitoring the tracking and will keep you posted on any updates. If you have any questions, feel free to reach out anytime!"
      tone := "neutral"
      copyable := true }

end Messages

/-- Claim C9: for every orderId, the template for
`(status="delivered", riskLevel="green")` has tone "positive", a subject
containing "delivered", and `copyable = true`. -/
theorem C9_delivered_template (orderId : String) :
    (Messages.getMessageTemplate (some "delivered") (some "green") orderId).tone
        = "positive" ∧
    (Messages.getMessageTemplate (some "delivered") (some "green") orderId).copyable
        = true ∧
    containsSub "delivered"
        (Messages.getMessageTemplate (some "delivered") (some "green") orderId).subject := by
  refine ⟨rfl, rfl, ?_⟩
  have hs : (Messages.getMessageTemplate (some "delivered") (some "green") orderId).subject
      = "Your order " ++ orderId ++ " has been delivered!" := rfl
  refine ⟨"Your order ".data ++ orderId.data ++ " has been ".data, "!".data, ?_⟩
  rw [hs]
  have hap : ∀ u v : String, (u ++ v).data = u.data ++ v.data := fun u v => rfl
  rw [hap, hap]
  have h2 : (" has been delivered!").data
      = " has been ".data ++ "delivered".data ++ "!".data := by decide
  rw [h2]
  simp
